import Mathlib

/-!
Shallow embedding of the access-control core of the repository:
the `Permission` value object (parsing, validation, canonical string form,
matching) and the `Role` aggregate (permission-list management, queries,
timestamps).  Machine clocks (`new Date()`) are modelled by an explicit
`now : Nat` argument to every mutator; `crypto.randomUUID()` by an explicit
`freshId : String` argument to `Role.create`.  JavaScript `undefined`/`null`
for optional strings is modelled by `Option String`; JavaScript truthiness
of a possibly-absent string (falsy iff absent or empty) by `strTruthy`.
-/

namespace SiaHono

/-- Errors thrown by `Permission.create` (the three thrown `Error` messages). -/
inductive PermError where
  | invalidFormat
  | invalidResource
  | invalidAction
deriving DecidableEq, Repr

/-- The `Permission` value object.  At runtime the TS class stores plain
strings for `resource` and `action` (the union types erase), and
`scope?: string` which may be absent (`none`) or any string including `""`. -/
structure Permission where
  resource : String
  action : String
  scope : Option String
deriving DecidableEq, Repr

/-- The `validResources` list of `Permission.isValidResource`. -/
def validResources : List String :=
  ["user", "role", "student", "teacher", "class", "subject", "assignment",
   "grade", "attendance", "schedule", "announcement", "report", "system"]

/-- The `validActions` list of `Permission.isValidAction`. -/
def validActions : List String :=
  ["create", "read", "update", "delete", "manage"]

/-- Embeds `Permission.isValidResource`: membership in the resource enumeration. -/
def isValidResource (resource : String) : Bool :=
  validResources.contains resource

/-- Embeds `Permission.isValidAction`: membership in the action enumeration. -/
def isValidAction (action : String) : Bool :=
  validActions.contains action

/-- JavaScript truthiness of an optional string: falsy iff absent or `""`. -/
def strTruthy : Option String → Bool
  | none => false
  | some s => s != ""

/-- JavaScript `String.prototype.split` with a one-character separator,
on the character list: `"".split(c)` is `[""]`, a separator at the end
produces a trailing empty segment. -/
def splitCharAux (c : Char) : List Char → List (List Char)
  | [] => [[]]
  | ch :: rest =>
      match splitCharAux c rest with
      | [] => if ch = c then [[], []] else [[ch]]
      | g :: gs => if ch = c then [] :: g :: gs else (ch :: g) :: gs

/-- JavaScript `s.split(c)` as a list of strings. -/
def jsSplit (c : Char) (s : String) : List String :=
  (splitCharAux c s.data).map (fun l => String.mk l)

/-- Leading-whitespace removal on a character list. -/
def dropLeadingWs : List Char → List Char
  | [] => []
  | c :: rest => if c.isWhitespace then dropLeadingWs rest else c :: rest

/-- JavaScript `String.prototype.trim`: strip leading and trailing
whitespace. -/
def jsTrim (s : String) : String :=
  String.mk ((dropLeadingWs (dropLeadingWs s.data.reverse).reverse))

instance {ε α : Type} [DecidableEq ε] [DecidableEq α] : DecidableEq (Except ε α) :=
  fun a b =>
    match a, b with
    | .ok x, .ok y =>
        if h : x = y then .isTrue (by rw [h]) else .isFalse (by simp [h])
    | .error x, .error y =>
        if h : x = y then .isTrue (by rw [h]) else .isFalse (by simp [h])
    | .ok _, .error _ => .isFalse (by simp)
    | .error _, .ok _ => .isFalse (by simp)

/-- Embeds `Permission.create`: split on `":"`; 2 or 3 parts required (else
`InvalidFormat`), then the resource check (else `InvalidResource`), then the
action check (else `InvalidAction`); a third part becomes the scope verbatim. -/
def Permission.create (permissionString : String) : Except PermError Permission :=
  match jsSplit ':' permissionString with
  | [resource, action] =>
      if isValidResource resource then
        if isValidAction action then .ok ⟨resource, action, none⟩
        else .error .invalidAction
      else .error .invalidResource
  | [resource, action, scope] =>
      if isValidResource resource then
        if isValidAction action then .ok ⟨resource, action, some scope⟩
        else .error .invalidAction
      else .error .invalidResource
  | _ => .error .invalidFormat

/-- Embeds `Permission.fromComponents`: direct construction, no parsing. -/
def Permission.fromComponents (resource action : String) (scope : Option String) :
    Permission :=
  ⟨resource, action, scope⟩

/-- Embeds `Permission.toString`: `resource:action:scope` when the scope is truthy
(present and non-empty), else `resource:action`. -/
def Permission.toString (p : Permission) : String :=
  if strTruthy p.scope then
    p.resource ++ ":" ++ p.action ++ ":" ++ p.scope.getD ""
  else
    p.resource ++ ":" ++ p.action

/-- Embeds `Permission.matches`: resource must be equal; `manage` grants every
action; otherwise actions must be equal; if the required scope is truthy the
granted scope must be falsy (global) or equal to it. -/
def Permission.matches (a required : Permission) : Bool :=
  if a.resource ≠ required.resource then false
  else if a.action = "manage" then true
  else if a.action ≠ required.action then false
  else if strTruthy required.scope then
    (!strTruthy a.scope) || (a.scope == required.scope)
  else true

/-- Embeds `Permission.implies`: pure alias of `matches`. -/
def Permission.implies (a other : Permission) : Bool :=
  a.matches other

/-- Embeds `Permission.equals`: structural equality of resource, action and scope
(`===` on each field, so `some ""` differs from `none`). -/
def Permission.equals (a other : Permission) : Bool :=
  a.resource == other.resource && a.action == other.action && a.scope == other.scope

/-- The `Role` aggregate's state (private fields of the TS class).
`Date` timestamps are modelled as `Nat` clock readings. -/
structure Role where
  id : String
  name : String
  displayName : String
  description : Option String
  permissions : List String
  tenantId : Option String
  isActive : Bool
  createdAt : Nat
  updatedAt : Nat
deriving DecidableEq, Repr

/-- The props object of `Role.create`; optional fields are `Option`s. -/
structure RoleCreateProps where
  name : String
  displayName : String
  description : Option String
  permissions : Option (List String)
  tenantId : Option String
deriving DecidableEq, Repr

/-- JavaScript `x || null` on an optional string: empty becomes `null`. -/
def orNull : Option String → Option String
  | none => none
  | some s => if s = "" then none else some s

/-- Embeds `Role.create`: fresh id, trimmed displayName,
`props.description?.trim() || null`, `props.permissions || []` verbatim,
`props.tenantId || null`, active, both timestamps set to now. -/
def Role.create (props : RoleCreateProps) (freshId : String) (now : Nat) : Role :=
  { id := freshId
    name := props.name
    displayName := jsTrim props.displayName
    description := orNull (props.description.map jsTrim)
    permissions := props.permissions.getD []
    tenantId := orNull props.tenantId
    isActive := true
    createdAt := now
    updatedAt := now }

/-- Embeds `Role.reconstitute`: rebuilds the aggregate verbatim from persisted
fields, with no re-validation and no changes. -/
def Role.reconstitute (props : Role) : Role :=
  { id := props.id
    name := props.name
    displayName := props.displayName
    description := props.description
    permissions := props.permissions
    tenantId := props.tenantId
    isActive := props.isActive
    createdAt := props.createdAt
    updatedAt := props.updatedAt }

/-- Embeds `Role.touch` (private): set `updatedAt` to the current clock. -/
def Role.touch (r : Role) (now : Nat) : Role :=
  { r with updatedAt := now }

/-- The props object of `Role.updateDetails`. -/
structure UpdateDetailsProps where
  displayName : Option String
  description : Option String
deriving DecidableEq, Repr

/-- Embeds `Role.updateDetails`: `if (props.displayName)` (truthy, so absent or
empty is a no-op) then assign the trimmed displayName;
`if (props.description !== undefined)` then assign
`props.description?.trim() || null`; always `touch`. -/
def Role.updateDetails (r : Role) (props : UpdateDetailsProps) (now : Nat) : Role :=
  let r1 :=
    match props.displayName with
    | some s => if s = "" then r else { r with displayName := jsTrim s }
    | none => r
  let r2 :=
    match props.description with
    | some d => { r1 with description := if jsTrim d = "" then none else some (jsTrim d) }
    | none => r1
  r2.touch now

/-- Embeds `Role.addPermission`: append (and `touch`) only when the exact string is
not already present. -/
def Role.addPermission (r : Role) (permission : String) (now : Nat) : Role :=
  if r.permissions.contains permission then r
  else ({ r with permissions := r.permissions ++ [permission] }).touch now

/-- Embeds `Role.removePermission`: splice out the first exact-string occurrence
(and `touch`) only when present. -/
def Role.removePermission (r : Role) (permission : String) (now : Nat) : Role :=
  if r.permissions.contains permission then
    ({ r with permissions := r.permissions.erase permission }).touch now
  else r

/-- Embeds `Role.setPermissions`: replace the whole list with a copy, `touch`. -/
def Role.setPermissions (r : Role) (permissions : List String) (now : Nat) : Role :=
  ({ r with permissions := permissions }).touch now

/-- Embeds `Role.hasPermission`: exact string membership in the stored list. -/
def Role.hasPermission (r : Role) (permission : String) : Bool :=
  r.permissions.contains permission

/-- Embeds `Role.hasAnyPermission`: some element is an exact member. -/
def Role.hasAnyPermission (r : Role) (permissions : List String) : Bool :=
  permissions.any (fun p => r.permissions.contains p)

/-- Embeds `Role.hasAllPermissions`: every element is an exact member. -/
def Role.hasAllPermissions (r : Role) (permissions : List String) : Bool :=
  permissions.all (fun p => r.permissions.contains p)

/-- Embeds `Role.activate`: set the flag, `touch`. -/
def Role.activate (r : Role) (now : Nat) : Role :=
  ({ r with isActive := true }).touch now

/-- Embeds `Role.deactivate`: clear the flag, `touch`. -/
def Role.deactivate (r : Role) (now : Nat) : Role :=
  ({ r with isActive := false }).touch now

/-! ## Verified properties -/

/-- Membership in the stored list is what `hasPermission` computes. -/
theorem hasPermission_iff_mem (r : Role) (p : String) :
    r.hasPermission p = true ↔ p ∈ r.permissions := by
  simp [Role.hasPermission, List.contains, List.elem_iff]

/-- C1: `hasPermission` is an exact string-membership test against the
stored permission list, not an invocation of `Permission.matches`: for every
role and permission string the answer is true iff the string is a member of
the list; a role created with permissions `["grade:manage"]` answers `true`
for `"grade:manage"` and `false` for `"grade:read"`, even though
`Permission.create "grade:manage"` matches `Permission.create "grade:read"`
under the wildcard algorithm. -/
theorem c1_hasPermission_exact_membership :
    (∀ (r : Role) (p : String), r.hasPermission p = true ↔ p ∈ r.permissions) ∧
    ((Role.create ⟨"teacher", "Teacher", none, some ["grade:manage"], none⟩
        "role-1" 0).hasPermission "grade:manage" = true) ∧
    ((Role.create ⟨"teacher", "Teacher", none, some ["grade:manage"], none⟩
        "role-1" 0).hasPermission "grade:read" = false) ∧
    (Permission.create "grade:manage" = .ok ⟨"grade", "manage", none⟩) ∧
    (Permission.create "grade:read" = .ok ⟨"grade", "read", none⟩) ∧
    (Permission.matches ⟨"grade", "manage", none⟩ ⟨"grade", "read", none⟩ = true) :=
  ⟨hasPermission_iff_mem, by decide, by decide, by decide, by decide, by decide⟩

/-- C10: the matches/implies relation is not transitive: the scoped grant
`grade:update:class_123` implies the unscoped `grade:update`, the unscoped
`grade:update` implies the scoped `grade:update:class_456`, yet
`grade:update:class_123` does not imply `grade:update:class_456`. -/
theorem c10_implies_not_transitive :
    Permission.create "grade:update:class_123" =
      .ok ⟨"grade", "update", some "class_123"⟩ ∧
    Permission.create "grade:update" = .ok ⟨"grade", "update", none⟩ ∧
    Permission.create "grade:update:class_456" =
      .ok ⟨"grade", "update", some "class_456"⟩ ∧
    Permission.implies ⟨"grade", "update", some "class_123"⟩
      ⟨"grade", "update", none⟩ = true ∧
    Permission.implies ⟨"grade", "update", none⟩
      ⟨"grade", "update", some "class_456"⟩ = true ∧
    Permission.implies ⟨"grade", "update", some "class_123"⟩
      ⟨"grade", "update", some "class_456"⟩ = false := by
  decide

/-- A permission string parses and its canonical form re-parses to the same
canonical form. -/
def roundTrips (s : String) : Bool :=
  match Permission.create s with
  | .ok p =>
      match Permission.create p.toString with
      | .ok q => q.toString == p.toString
      | .error _ => false
  | .error _ => false

/-- C8: for every resource of the resource enumeration and every action of
the action enumeration, `Permission.create "r:a"` succeeds, and the result
round-trips: re-parsing its `toString` gives a permission with the same
`toString`. -/
theorem c8_create_roundtrip :
    ∀ r ∈ validResources, ∀ a ∈ validActions,
      (Permission.create (r ++ ":" ++ a)).isOk = true ∧
      roundTrips (r ++ ":" ++ a) = true := by
  decide

/-- Witness for C8 at the concrete pair `grade`, `read`. -/
theorem c8_create_roundtrip_witness :
    "grade" ∈ validResources ∧ "read" ∈ validActions ∧
    ((Permission.create ("grade" ++ ":" ++ "read")).isOk = true ∧
      roundTrips ("grade" ++ ":" ++ "read") = true) :=
  ⟨by decide, by decide,
    c8_create_roundtrip "grade" (by decide) "read" (by decide)⟩

/-- C9: for every valid resource and action, `Permission.create "r:a:"`
(trailing colon, empty third segment) succeeds with scope `""`; its
`toString` is `"r:a"` (the empty scope is dropped, being falsy); yet it is
not `equals` to `Permission.create "r:a"`, whose scope is absent. -/
theorem c9_trailing_colon_empty_scope :
    ∀ r ∈ validResources, ∀ a ∈ validActions,
      Permission.create (r ++ ":" ++ a ++ ":") = .ok ⟨r, a, some ""⟩ ∧
      Permission.toString ⟨r, a, some ""⟩ = r ++ ":" ++ a ∧
      Permission.create (r ++ ":" ++ a) = .ok ⟨r, a, none⟩ ∧
      Permission.equals ⟨r, a, some ""⟩ ⟨r, a, none⟩ = false := by
  decide

/-- Witness for C9 at the concrete pair `class`, `delete`. -/
theorem c9_trailing_colon_empty_scope_witness :
    "class" ∈ validResources ∧ "delete" ∈ validActions ∧
    (Permission.create ("class" ++ ":" ++ "delete" ++ ":") =
        .ok ⟨"class", "delete", some ""⟩ ∧
      Permission.toString ⟨"class", "delete", some ""⟩ = "class" ++ ":" ++ "delete" ∧
      Permission.create ("class" ++ ":" ++ "delete") = .ok ⟨"class", "delete", none⟩ ∧
      Permission.equals ⟨"class", "delete", some ""⟩ ⟨"class", "delete", none⟩ = false) :=
  ⟨by decide, by decide,
    c9_trailing_colon_empty_scope "class" (by decide) "delete" (by decide)⟩

/-- The matching relation exactly as claim C2 words it: the scope clause
asks for scope *absence*, where the code tests JavaScript falsiness (absent
or empty).  Stated from the claim's words, for refinement comparison. -/
def matchesSpecC2 (a b : Permission) : Prop :=
  a.resource = b.resource ∧
  (a.action = "manage" ∨
    (a.action = b.action ∧ (b.scope = none ∨ a.scope = none ∨ a.scope = b.scope)))

instance (a b : Permission) : Decidable (matchesSpecC2 a b) := by
  unfold matchesSpecC2; infer_instance

/-- C2 counterexample: both permissions parse from strings, the granted one
carries scope `"x"`, the required one the empty scope `""` (from a trailing
colon); `matches` answers `true` (the empty required scope is falsy), but
the claim's wording — which only excuses an *absent* scope — says no match. -/
theorem c2_counterexample :
    Permission.create "grade:read:x" = .ok ⟨"grade", "read", some "x"⟩ ∧
    Permission.create "grade:read:" = .ok ⟨"grade", "read", some ""⟩ ∧
    Permission.matches ⟨"grade", "read", some "x"⟩ ⟨"grade", "read", some ""⟩ = true ∧
    ¬ matchesSpecC2 ⟨"grade", "read", some "x"⟩ ⟨"grade", "read", some ""⟩ := by
  decide

/-- C2 (amended): `a.matches b` is true iff the resources are equal and
(`a`'s action is `manage`, or the actions are equal and (`b`'s scope is
absent or empty, or `a`'s scope is absent or empty, or the scopes are
equal)).  Consequently a `manage` grant matches every action on its
resource and different resources never match. -/
theorem c2_matches_characterization (a b : Permission) :
    a.matches b = true ↔
      a.resource = b.resource ∧
      (a.action = "manage" ∨
        (a.action = b.action ∧
          (strTruthy b.scope = false ∨ strTruthy a.scope = false ∨
            a.scope = b.scope))) := by
  obtain ⟨ra, aa, sa⟩ := a
  obtain ⟨rb, ab, sb⟩ := b
  simp only [Permission.matches]
  split_ifs <;>
    simp_all [Bool.or_eq_true, Bool.not_eq_true', beq_iff_eq]

/-- C3: `Permission.create` succeeds iff splitting on `":"` yields exactly
2 or 3 segments whose first is a valid resource and whose second is a valid
action; the error is `InvalidFormat` exactly when the segment count is bad,
else `InvalidResource` exactly when the resource is bad, else
`InvalidAction` exactly when the action is bad; a third segment is accepted
verbatim as the scope with no validation. -/
theorem c3_create_validation (s : String) :
    (((Permission.create s).isOk = true) ↔
      (((jsSplit ':' s).length = 2 ∨ (jsSplit ':' s).length = 3) ∧
        isValidResource ((jsSplit ':' s).headD "") = true ∧
        isValidAction (((jsSplit ':' s).drop 1).headD "") = true)) ∧
    (Permission.create s = .error .invalidFormat ↔
      ¬((jsSplit ':' s).length = 2 ∨ (jsSplit ':' s).length = 3)) ∧
    (Permission.create s = .error .invalidResource ↔
      (((jsSplit ':' s).length = 2 ∨ (jsSplit ':' s).length = 3) ∧
        isValidResource ((jsSplit ':' s).headD "") = false)) ∧
    (Permission.create s = .error .invalidAction ↔
      (((jsSplit ':' s).length = 2 ∨ (jsSplit ':' s).length = 3) ∧
        isValidResource ((jsSplit ':' s).headD "") = true ∧
        isValidAction (((jsSplit ':' s).drop 1).headD "") = false)) ∧
    (∀ r a sc, jsSplit ':' s = [r, a, sc] →
      isValidResource r = true → isValidAction a = true →
      Permission.create s = .ok ⟨r, a, some sc⟩) := by
  rcases h : jsSplit ':' s with _ | ⟨r, _ | ⟨a, _ | ⟨sc, _ | ⟨d, tl⟩⟩⟩⟩
  · simp [Permission.create, h, Except.isOk, Except.toBool]
  · simp [Permission.create, h, Except.isOk, Except.toBool]
  · by_cases hres : isValidResource r = true <;>
      by_cases hact : isValidAction a = true <;>
        simp [Permission.create, h, hres, hact, Bool.not_eq_true,
          Except.isOk, Except.toBool]
  · by_cases hres : isValidResource r = true <;>
      by_cases hact : isValidAction a = true <;>
        simp [Permission.create, h, hres, hact, Bool.not_eq_true,
          Except.isOk, Except.toBool]
  · simp [Permission.create, h, Except.isOk, Except.toBool]

/-- Witness for C3: the scope-verbatim conjunct at `"grade:read:class_1"`
and the empty-input conjunct at `""`. -/
theorem c3_create_validation_witness :
    jsSplit ':' "grade:read:class_1" = ["grade", "read", "class_1"] ∧
    isValidResource "grade" = true ∧ isValidAction "read" = true ∧
    Permission.create "grade:read:class_1" = .ok ⟨"grade", "read", some "class_1"⟩ ∧
    Permission.create "" = .error .invalidFormat :=
  ⟨by decide, by decide, by decide,
    (c3_create_validation "grade:read:class_1").2.2.2.2 "grade" "read" "class_1"
      (by decide) (by decide) (by decide),
    ((c3_create_validation "").2.1).mpr (by decide)⟩

/-- C4 counterexample: `Role.create` stores the supplied permission list
verbatim (`props.permissions || []`), so creating a role with the list
`["grade:read", "grade:read"]` yields a permission list carrying two
exactly-equal entries. -/
theorem c4_counterexample :
    ¬ (Role.create ⟨"teacher", "Teacher", none,
        some ["grade:read", "grade:read"], none⟩
        "role-1" 0).permissions.Nodup := by
  decide

/-- C4 (amended): `addPermission` preserves duplicate-freedom on its own
(duplicate suppression on add); `create`, `reconstitute` and
`setPermissions` copy the supplied list verbatim, so each yields a
duplicate-free list exactly when handed one. -/
theorem c4_permissions_nodup (r : Role) (p : String) (l : List String)
    (props : RoleCreateProps) (i : String) (now : Nat)
    (hr : r.permissions.Nodup) (hl : l.Nodup)
    (hp : (props.permissions.getD []).Nodup) :
    (r.addPermission p now).permissions.Nodup ∧
    (r.setPermissions l now).permissions.Nodup ∧
    (Role.create props i now).permissions.Nodup ∧
    (Role.reconstitute r).permissions.Nodup := by
  refine ⟨?_, ?_, ?_, ?_⟩
  · unfold Role.addPermission
    split
    · exact hr
    · next hc =>
      simp only [List.contains, Bool.not_eq_true] at hc
      have hnm : p ∉ r.permissions := by
        intro hm
        rw [(List.elem_iff).mpr hm] at hc
        exact Bool.true_eq_false.mp hc
      simp [Role.touch, List.nodup_append, hr, hnm, List.disjoint_singleton]
  · simpa [Role.setPermissions, Role.touch] using hl
  · simpa [Role.create] using hp
  · simpa [Role.reconstitute] using hr

/-- Witness for C4 at a concrete role, permission, list and props. -/
theorem c4_permissions_nodup_witness :
    ((⟨"id-1", "teacher", "Teacher", none, ["grade:read"], none, true, 0, 0⟩ :
        Role).permissions.Nodup) ∧
    (["user:read", "user:update"] : List String).Nodup ∧
    (((⟨"admin", "Admin", none, some ["system:manage"], none⟩ :
        RoleCreateProps).permissions.getD []).Nodup) ∧
    (((⟨"id-1", "teacher", "Teacher", none, ["grade:read"], none, true, 0, 0⟩ :
        Role).addPermission "grade:read" 5).permissions.Nodup ∧
      ((⟨"id-1", "teacher", "Teacher", none, ["grade:read"], none, true, 0, 0⟩ :
          Role).setPermissions ["user:read", "user:update"] 5).permissions.Nodup ∧
      (Role.create ⟨"admin", "Admin", none, some ["system:manage"], none⟩
          "role-2" 5).permissions.Nodup ∧
      (Role.reconstitute ⟨"id-1", "teacher", "Teacher", none, ["grade:read"],
          none, true, 0, 0⟩).permissions.Nodup) :=
  ⟨by decide, by decide, by decide,
    c4_permissions_nodup
      ⟨"id-1", "teacher", "Teacher", none, ["grade:read"], none, true, 0, 0⟩
      "grade:read" ["user:read", "user:update"]
      ⟨"admin", "Admin", none, some ["system:manage"], none⟩ "role-2" 5
      (by decide) (by decide) (by decide)⟩

/-- C5 counterexample: adding an already-present permission string at clock
5 to a role whose `updatedAt` is 0 leaves `updatedAt` at 0 (the guard skips
`touch`), and so does removing an absent one — the claim says every such
call advances `updatedAt`. -/
theorem c5_counterexample :
    ((⟨"id-1", "teacher", "Teacher", none, ["grade:read"], none, true, 0, 0⟩ :
        Role).addPermission "grade:read" 5).updatedAt = 0 ∧
    ((⟨"id-1", "teacher", "Teacher", none, ["grade:read"], none, true, 0, 0⟩ :
        Role).removePermission "grade:update" 5).updatedAt = 0 := by
  decide

/-- C5 (amended): `updateDetails`, `setPermissions`, `activate` and
`deactivate` always set `updatedAt` to the current clock; `addPermission`
does so only when the permission was absent, and `removePermission` only
when it was present — a no-op call leaves `updatedAt` unchanged. -/
theorem c5_mutators_updatedAt (r : Role) (dp : UpdateDetailsProps)
    (p q : String) (l : List String) (now : Nat) :
    (r.updateDetails dp now).updatedAt = now ∧
    (r.setPermissions l now).updatedAt = now ∧
    (r.activate now).updatedAt = now ∧
    (r.deactivate now).updatedAt = now ∧
    (r.addPermission p now).updatedAt =
      (if r.permissions.contains p then r.updatedAt else now) ∧
    (r.removePermission q now).updatedAt =
      (if r.permissions.contains q then now else r.updatedAt) := by
  refine ⟨?_, by simp [Role.setPermissions, Role.touch],
    by simp [Role.activate, Role.touch],
    by simp [Role.deactivate, Role.touch], ?_, ?_⟩
  · simp [Role.updateDetails, Role.touch]
  · unfold Role.addPermission
    split <;> simp_all [Role.touch]
  · unfold Role.removePermission
    split <;> simp_all [Role.touch]

/-- C6 counterexample: with a stored description `"x"`, calling
`updateDetails` with the description field undefined leaves the description
as `"x"` rather than clearing it to null — the guard
`props.description !== undefined` makes explicit `undefined` a no-op. -/
theorem c6_counterexample :
    ((⟨"id-1", "admin", "Admin", some "x", [], none, true, 0, 0⟩ :
        Role).updateDetails ⟨none, none⟩ 5).description = some "x" ∧
    ((⟨"id-1", "admin", "Admin", some "x", [], none, true, 0, 0⟩ :
        Role).updateDetails ⟨none, none⟩ 5).description ≠ none := by
  decide

/-- C6 (amended): `updateDetails` updates only provided fields: a supplied
description that trims to empty (in particular `""`) clears the stored
description to null, a supplied non-whitespace description is stored
trimmed, and an undefined/omitted description leaves the stored description
unchanged (it is not cleared). -/
theorem c6_updateDetails_description (r : Role) (dn : Option String)
    (d : String) (now : Nat) :
    (r.updateDetails ⟨dn, none⟩ now).description = r.description ∧
    (r.updateDetails ⟨dn, some d⟩ now).description =
      (if jsTrim d = "" then none else some (jsTrim d)) ∧
    (r.updateDetails ⟨none, some d⟩ now).displayName = r.displayName := by
  refine ⟨?_, ?_, ?_⟩ <;>
    · unfold Role.updateDetails
      cases dn <;> simp [Role.touch] <;> split <;> simp [Role.touch]

/-- C7 counterexample: `" "` is a non-empty string, yet creating a role
with displayName `" "` stores the trimmed value `""` — the displayName is
empty after a mutating call that supplied a non-empty value. -/
theorem c7_counterexample :
    (" " ≠ "") ∧
    (Role.create ⟨"teacher", " ", none, none, none⟩ "role-1" 0).displayName
      = "" := by
  decide

/-- C7 (amended): for every supplied displayName whose *trimmed* form is
non-empty, both `Role.create` and `updateDetails` leave a non-empty stored
displayName (whitespace-only input, though non-empty, trims to empty). -/
theorem c7_displayName_nonempty (props : RoleCreateProps) (r : Role)
    (s : String) (i : String) (now : Nat)
    (h1 : jsTrim props.displayName ≠ "") (h2 : jsTrim s ≠ "") :
    (Role.create props i now).displayName ≠ "" ∧
    (r.updateDetails ⟨some s, none⟩ now).displayName ≠ "" := by
  constructor
  · simpa [Role.create] using h1
  · have hs : s ≠ "" := by
      intro hempty
      apply h2
      rw [hempty]
      rfl
    unfold Role.updateDetails
    simpa [hs, Role.touch] using h2

/-- Witness for C7 at the concrete inputs `" Admin "` and `"Teacher"`. -/
theorem c7_displayName_nonempty_witness :
    jsTrim " Admin " ≠ "" ∧ jsTrim "Teacher" ≠ "" ∧
    ((Role.create ⟨"admin", " Admin ", none, none, none⟩ "role-1" 3).displayName
        ≠ "" ∧
      ((⟨"id-1", "teacher", "T", none, [], none, true, 0, 0⟩ :
          Role).updateDetails ⟨some "Teacher", none⟩ 3).displayName ≠ "") :=
  ⟨by decide, by decide,
    c7_displayName_nonempty ⟨"admin", " Admin ", none, none, none⟩
      ⟨"id-1", "teacher", "T", none, [], none, true, 0, 0⟩
      "Teacher" "role-1" 3 (by decide) (by decide)⟩

end SiaHono
